import Mathlib

/-!
Shallow embedding of the audio style-transformation pipeline of
`src/tts_app.py` (GlobalTTS), covering the style registry `voice_styles`
(lines 22-29) and the processor `process_audio` (lines 43-60).

The sample data of a decoded pydub `AudioSegment` is embedded as a list of
integer sample values together with the declared frame rate, sample width
(bytes per sample) and channel count.  Python floats that only feed into
guards or are passed straight through are embedded as `ℚ`; the two values
that the source computes with binary64 arithmetic — the virtual sample rate
`int(audio.frame_rate * 2 ** (pitch / 1200))` on line 53 and the linear gain
factor `10 ** (volume / 20)` hidden inside pydub's `+=` on line 57 — are
passed to the embedded pipeline as explicit arguments (`newRate`, `g`);
each theorem that depends on such a value instantiates it at the number the
Python expression actually evaluates to, recorded in the comment there.

Third-party library calls (pydub `speedup`, `set_frame_rate`, `apply_gain`;
librosa `effects.pitch_shift`; numpy `astype`) are not code of this
repository; each is modelled by a definition whose doc comment names the
call and states the contract being modelled.  librosa's pitch shifter, a
large STFT pipeline, is kept as an explicit function argument (`pshift`);
the only fact about it any theorem uses is its documented output-length
guarantee, taken as a hypothesis.
-/

/-- Decoded PCM buffer: the embedding of a pydub `AudioSegment`.
`data` is the interleaved list of integer sample values as exposed by
`get_array_of_samples`; `frame_rate` in Hz; `sample_width` in bytes per
sample; `channels` the channel count. -/
structure Buffer where
  data : List ℤ
  frame_rate : ℕ
  sample_width : ℕ
  channels : ℕ
  deriving DecidableEq, Repr

/-- One entry of the `voice_styles` dict (lines 22-29): `speed`, `pitch`,
`volume` are the values of the keys of the same names; `effect` is
`some tag` when the dict carries an `effect` key (only the robot style
does), mirroring `style_params.get("effect")`. -/
structure StyleParams where
  speed : ℚ
  pitch : ℤ
  volume : ℤ
  effect : Option String
  deriving DecidableEq, Repr

/-- The `voice_styles` dict of lines 22-29, as an association list in
source order. -/
def voice_styles : List (String × StyleParams) :=
  [ ("neutral", ⟨1.0, 0, 0, none⟩),
    ("happy",   ⟨1.2, 50, 2, none⟩),
    ("sad",     ⟨0.8, -30, -3, none⟩),
    ("angry",   ⟨1.1, 20, 6, none⟩),
    ("whisper", ⟨0.9, -50, -10, none⟩),
    ("robot",   ⟨1.0, 0, 0, some "robot"⟩) ]

/-- Dict indexing `voice_styles[name]` (line 127): `some params` for a
present key, `none` for the `KeyError` case. -/
def styleLookup (name : String) : Option StyleParams :=
  voice_styles.lookup name

/-- The profile table exactly as the words and numbers of spec section 4.1
give it, written independently of `voice_styles` so that agreement between
code and spec is a provable statement rather than a definition. -/
def spec_profiles : List (String × StyleParams) :=
  [ ("neutral", ⟨1.0, 0, 0, none⟩),
    ("happy",   ⟨1.2, 50, 2, none⟩),
    ("sad",     ⟨0.8, -30, -3, none⟩),
    ("angry",   ⟨1.1, 20, 6, none⟩),
    ("whisper", ⟨0.9, -50, -10, none⟩),
    ("robot",   ⟨1.0, 0, 0, some "robot"⟩) ]

/-- The six style names, in the source order of the dict literal. -/
def styleNames : List String :=
  ["neutral", "happy", "sad", "angry", "whisper", "robot"]

/-- Truncation of a rational toward zero: the behaviour of a C float-to-int
cast, used by numpy `astype` and by audioop when converting the float
result of a multiply back to an integer sample. -/
def truncQ (q : ℚ) : ℤ :=
  if 0 ≤ q then ⌊q⌋ else ⌈q⌉

/-- Reduction of an integer into the signed 16-bit range by wrapping modulo
2^16. -/
def wrap16 (n : ℤ) : ℤ :=
  (n + 32768) % 65536 - 32768

/-- Models numpy `astype(np.int16)` applied to a float sample (line 50):
C-style truncation toward zero followed by wrapping modulo 2^16.  NumPy
does not clamp: out-of-range values wrap (observed platform behaviour,
e.g. 40000.0 becomes -25536). -/
def int16OfFloat (q : ℚ) : ℤ :=
  wrap16 (truncQ q)

/-- The conversion the spec asks for in section 4.2 Stage B, written from
the words of the spec ("clamped/quantized back to the buffer's integer
sample format", "never wrapping"): truncate, then clamp into
[-32768, 32767].  Stated only to be compared against `int16OfFloat`. -/
def specClamp16 (q : ℚ) : ℤ :=
  max (-32768) (min 32767 (truncQ q))

/-- Little-endian byte encoding of one 16-bit sample, as produced by
`samples.astype(np.int16).tobytes()` on line 50. -/
def int16LE (n : ℤ) : List ℕ :=
  [(n % 65536).toNat % 256, (n % 65536).toNat / 256]

/-- Byte stream of `tobytes()` over a whole sample list. -/
def encodeInt16 (ns : List ℤ) : List ℕ :=
  ns.flatMap int16LE

/-- Signed reinterpretation of a `w`-byte little-endian value. -/
def signW (w : ℕ) (v : ℕ) : ℤ :=
  if 2 ^ (8 * w - 1) ≤ v then (v : ℤ) - 2 ^ (8 * w) else (v : ℤ)

/-- Unsigned value of a little-endian byte list. -/
def valLE : List ℕ → ℕ
  | [] => 0
  | b :: r => b + 256 * valLE r

/-- Reinterpretation of a raw byte stream as samples of `w` bytes each:
how a pydub `AudioSegment` constructed from raw data and a declared
`sample_width` (lines 50-51) exposes its samples. -/
def decodeSamples (w : ℕ) (bs : List ℕ) : List ℤ :=
  if h : w = 0 ∨ bs.length = 0 then []
  else signW w (valLE (bs.take w)) :: decodeSamples w (bs.drop w)
termination_by bs.length
decreasing_by
  push_neg at h
  simp only [List.length_drop]
  omega

/-- Contract-level model of pydub `AudioSegment.speedup` (line 46; library
code, not part of this repository): a time-scale change that keeps the
frame rate, channel count and sample width, scales the frame count by
1/speed, and fills the output frame-by-frame from tempo-proportional
positions of the input, as spec section 4.2 Stage A describes the
library call. -/
def speedupModel (s : ℚ) (b : Buffer) : Buffer :=
  let nFrames := b.data.length / b.channels
  let newFrames := (⌈(nFrames : ℚ) / s⌉).toNat
  let newData := (List.range (newFrames * b.channels)).map
    (fun j => b.data.getD
      ((⌊((j / b.channels : ℕ) : ℚ) * s⌋).toNat * b.channels + j % b.channels) 0)
  { b with data := newData }

/-- Contract-level model of the rate conversion pydub `set_frame_rate`
performs when the requested rate differs from the current one (library
code, not part of this repository): nearest-position frame resampling to
the new rate.  No theorem below depends on this branch; `set_frame_rate`
below only ever reaches it when its argument differs from the buffer's
own rate, which the source never makes happen. -/
def resampleModel (b : Buffer) (r : ℕ) : Buffer :=
  let nFrames := b.data.length / b.channels
  let newFrames := nFrames * r / b.frame_rate
  let newData := (List.range (newFrames * b.channels)).map
    (fun j => b.data.getD
      ((j / b.channels * b.frame_rate / r) * b.channels + j % b.channels) 0)
  { b with frame_rate := r, data := newData }

/-- pydub `AudioSegment.set_frame_rate` (line 55): returns the segment
unchanged when the requested rate already equals the current one,
otherwise resamples to the requested rate. -/
def set_frame_rate (b : Buffer) (r : ℕ) : Buffer :=
  if r = b.frame_rate then b else resampleModel b r

/-- Lines 53-55, the resample-based pitch path, with `newRate` standing
for the binary64 value of `int(audio.frame_rate * 2 ** (pitch / 1200))`.
`audio._spawn(audio.raw_data, overrides)` keeps the data and overrides the
rate tag; the following `audio.set_frame_rate(audio.frame_rate)` is called
on the already rebound `audio`, so its argument is the overridden rate. -/
def pitchStage (newRate : ℕ) (b : Buffer) : Buffer :=
  let spawned : Buffer := { b with frame_rate := newRate }
  set_frame_rate spawned spawned.frame_rate

/-- Lines 48-51, the robot path.  `pshift` stands for
`librosa.effects.pitch_shift` at a given `n_steps` (library code, not part
of this repository); the source feeds it the full interleaved sample list
cast to float, with the constant `n_steps=5`, then rebuilds an
`AudioSegment` from `astype(np.int16).tobytes()` under the original
declared frame rate, sample width and channel count. -/
def robotStage (pshift : ℤ → List ℚ → List ℚ) (b : Buffer) : Buffer :=
  let shifted := pshift 5 (b.data.map (fun (s : ℤ) => (s : ℚ)))
  { data := decodeSamples b.sample_width (encodeInt16 (shifted.map int16OfFloat)),
    frame_rate := b.frame_rate,
    sample_width := b.sample_width,
    channels := b.channels }

/-- Saturation to the representable range of a `w`-byte signed sample. -/
def clampW (w : ℕ) (v : ℤ) : ℤ :=
  max (-(2 ^ (8 * w - 1))) (min (2 ^ (8 * w - 1) - 1) v)

/-- Model of pydub `audio += volume` (line 57), which is `apply_gain`:
audioop multiplies every sample by the linear factor `10 ** (volume / 20)`
and saturates to the sample width's range.  `g` stands for the binary64
value of the factor. -/
def apply_gain (g : ℚ) (b : Buffer) : Buffer :=
  { b with data := b.data.map (fun (s : ℤ) => clampW b.sample_width (truncQ (g * (s : ℚ)))) }

/-- Line 45-46: the speed stage, run only when `speed != 1.0`. -/
def speedStage (p : StyleParams) (b : Buffer) : Buffer :=
  if p.speed ≠ 1 then speedupModel p.speed b else b

/-- Lines 47-55: the pitch/effect stage: the robot path when the params
carry `effect == "robot"`, else the resample pitch path when
`pitch != 0`, else nothing. -/
def effectStage (pshift : ℤ → List ℚ → List ℚ) (newRate : ℕ)
    (p : StyleParams) (b : Buffer) : Buffer :=
  if p.effect = some "robot" then robotStage pshift b
  else if p.pitch ≠ 0 then pitchStage newRate b
  else b

/-- Lines 56-57: the gain stage, run only when `volume != 0`. -/
def gainStage (g : ℚ) (p : StyleParams) (b : Buffer) : Buffer :=
  if p.volume ≠ 0 then apply_gain g b else b

/-- `process_audio` (lines 43-60) on the decoded buffer: speed stage, then
pitch/effect stage, then gain stage, in source order.  The surrounding
container decode (line 44) and mp3 re-encode (lines 58-59) are the codec
boundary outside the PCM pipeline.  `pshift`, `newRate`, `g` are the
library pitch shifter and the two realized float values described at the
top of the file. -/
def process_audio (pshift : ℤ → List ℚ → List ℚ) (newRate : ℕ) (g : ℚ)
    (p : StyleParams) (b : Buffer) : Buffer :=
  gainStage g p (effectStage pshift newRate p (speedStage p b))

/-- Well-formedness of a PCM buffer per spec section 3: positive rate,
positive channel count, positive sample width, sample count divisible by
the channel count. -/
def wellFormed (b : Buffer) : Prop :=
  0 < b.frame_rate ∧ 0 < b.channels ∧ 0 < b.sample_width ∧
    b.data.length % b.channels = 0

/-- The supported input formats per spec section 4.2: mono or stereo,
16-bit (2-byte) integer samples. -/
def supportedFmt (b : Buffer) : Prop :=
  (b.channels = 1 ∨ b.channels = 2) ∧ b.sample_width = 2

instance (b : Buffer) : Decidable (wellFormed b) := by
  unfold wellFormed; infer_instance

instance (b : Buffer) : Decidable (supportedFmt b) := by
  unfold supportedFmt; infer_instance

/-- A pitch shifter usable as a stand-in in closed witnesses: the
identity on the sample list, ignoring the step count. -/
def psId : ℤ → List ℚ → List ℚ := fun _ l => l

/-- A pitch shifter stand-in whose output holds one out-of-range float
sample, as a full-scale input can produce under a real spectral shift. -/
def psBig : ℤ → List ℚ → List ℚ := fun _ _ => [(40000 : ℚ)]

/-- Concrete mono 16-bit 16 kHz buffer with four frames. -/
def demoBuf : Buffer :=
  { data := [100, -200, 300, -400], frame_rate := 16000,
    sample_width := 2, channels := 1 }

/-- Concrete empty mono 16-bit 16 kHz buffer. -/
def emptyBuf : Buffer :=
  { data := [], frame_rate := 16000, sample_width := 2, channels := 1 }

/-- Concrete five-channel 16-bit buffer (one frame). -/
def fiveChanBuf : Buffer :=
  { data := [1, 2, 3, 4, 5], frame_rate := 16000,
    sample_width := 2, channels := 5 }

/-- Concrete stereo 16-bit buffer with two frames. -/
def stereoBuf : Buffer :=
  { data := [10, -10, 20, -20], frame_rate := 16000,
    sample_width := 2, channels := 2 }

/-- Concrete buffer whose sample count (3) is not divisible by its channel
count (2). -/
def malformedBuf : Buffer :=
  { data := [1, 2, 3], frame_rate := 16000, sample_width := 2, channels := 2 }

/-- A pitch-only profile: effect absent, pitchCents 50, the other
parameters at their unchanged values. -/
def pitchOnly50 : StyleParams := ⟨1.0, 50, 0, none⟩

/-- The neutral profile of the registry. -/
def neutralStyle : StyleParams := ⟨1.0, 0, 0, none⟩

/-- The robot profile of the registry. -/
def robotStyle : StyleParams := ⟨1.0, 0, 0, some "robot"⟩

/-! Helper lemmas about the embedded stages. -/

/-- The pitch path never restores the original rate: `set_frame_rate` is
called with the spawned segment's own rate, so it takes its identity
branch and the stage amounts to retagging the frame rate. -/
theorem pitchStage_eq (nr : ℕ) (b : Buffer) :
    pitchStage nr b = { b with frame_rate := nr } := by
  simp [pitchStage, set_frame_rate]

theorem wrap16_lb (n : ℤ) : -32768 ≤ wrap16 n := by
  unfold wrap16; omega

theorem wrap16_ub (n : ℤ) : wrap16 n < 32768 := by
  unfold wrap16; omega

theorem signW_int16LE (n : ℤ) (h1 : -32768 ≤ n) (h2 : n < 32768) :
    signW 2 (valLE [(n % 65536).toNat % 256, (n % 65536).toNat / 256]) = n := by
  simp only [valLE, signW]
  norm_num
  split <;> omega

theorem decodeSamples_nil (w : ℕ) : decodeSamples w [] = [] := by
  rw [decodeSamples]
  simp

theorem decodeSamples_cons2 (b0 b1 : ℕ) (rest : List ℕ) :
    decodeSamples 2 (b0 :: b1 :: rest) =
      signW 2 (valLE [b0, b1]) :: decodeSamples 2 rest := by
  rw [decodeSamples]
  simp [List.take_succ_cons, List.drop_succ_cons]

theorem decode_encode (ns : List ℤ) (h : ∀ n ∈ ns, -32768 ≤ n ∧ n < 32768) :
    decodeSamples 2 (encodeInt16 ns) = ns := by
  induction ns with
  | nil => simp [encodeInt16, decodeSamples_nil]
  | cons n rest ih =>
    have hn := h n (List.mem_cons_self n rest)
    have hr : ∀ m ∈ rest, -32768 ≤ m ∧ m < 32768 :=
      fun m hm => h m (List.mem_cons_of_mem n hm)
    simp only [encodeInt16, List.flatMap_cons, int16LE, List.cons_append,
      List.nil_append] at ih ⊢
    rw [decodeSamples_cons2, signW_int16LE n hn.1 hn.2, ih hr]

theorem robotStage_data (pshift : ℤ → List ℚ → List ℚ) (b : Buffer)
    (hw : b.sample_width = 2) :
    (robotStage pshift b).data =
      (pshift 5 (b.data.map (fun (s : ℤ) => (s : ℚ)))).map int16OfFloat := by
  simp only [robotStage, hw]
  refine decode_encode _ ?_
  intro n hn
  obtain ⟨q, _, rfl⟩ := List.mem_map.mp hn
  exact ⟨wrap16_lb _, wrap16_ub _⟩

theorem speedupModel_length (s : ℚ) (b : Buffer) :
    (speedupModel s b).data.length =
      (⌈((b.data.length / b.channels : ℕ) : ℚ) / s⌉).toNat * b.channels := by
  simp [speedupModel]

theorem apply_gain_length (g : ℚ) (b : Buffer) :
    (apply_gain g b).data.length = b.data.length := by
  simp only [apply_gain, List.length_map]

theorem none_ne_some_robot :
    ((none : Option String) = some "robot") = False := by
  simp

/-! Claim theorems. -/

/-- C4: the style registry holds exactly the six named profiles of the
spec's section 4.1 table — neutral, happy, sad, angry, whisper, robot —
with exactly the table's values; the registry is a fixed compile-time
constant of the embedding (the source only ever reads `voice_styles`), so
its key set has exactly these six distinct names. -/
theorem C4_registry_matches_spec_table :
    voice_styles = spec_profiles ∧
    voice_styles.map Prod.fst = styleNames ∧
    (voice_styles.map Prod.fst).Nodup ∧
    voice_styles.length = 6 := by
  refine ⟨rfl, rfl, ?_, rfl⟩
  decide

/-- C9: registry lookup fails (returns none, the dict `KeyError` case) for
every name outside the six fixed keys, and returns each key's profile on
the six keys; `styleLookup` is a pure function, so it has no side
effects. -/
theorem C9_lookup_fails_exactly_off_keys :
    (∀ name : String, name ∉ styleNames → styleLookup name = none) ∧
    styleLookup "neutral" = some ⟨1.0, 0, 0, none⟩ ∧
    styleLookup "happy" = some ⟨1.2, 50, 2, none⟩ ∧
    styleLookup "sad" = some ⟨0.8, -30, -3, none⟩ ∧
    styleLookup "angry" = some ⟨1.1, 20, 6, none⟩ ∧
    styleLookup "whisper" = some ⟨0.9, -50, -10, none⟩ ∧
    styleLookup "robot" = some ⟨1.0, 0, 0, some "robot"⟩ := by
  refine ⟨?_, rfl, rfl, rfl, rfl, rfl, rfl⟩
  intro n hn
  simp only [styleNames, List.mem_cons, List.mem_singleton, not_or] at hn
  obtain ⟨h1, h2, h3, h4, h5, h6, -⟩ := hn
  simp [styleLookup, voice_styles, List.lookup,
    beq_eq_false_iff_ne.mpr h1, beq_eq_false_iff_ne.mpr h2,
    beq_eq_false_iff_ne.mpr h3, beq_eq_false_iff_ne.mpr h4,
    beq_eq_false_iff_ne.mpr h5, beq_eq_false_iff_ne.mpr h6]

/-- Witness for C9 at the spec's own example input: looking up
"nonexistent" fails. -/
theorem C9_lookup_fails_exactly_off_keys_witness :
    styleLookup "nonexistent" = none :=
  C9_lookup_fails_exactly_off_keys.1 "nonexistent" (by decide)

/-- C6: processing any buffer with the neutral profile (speed 1.0,
pitch 0, volume 0, no effect) leaves the decoded PCM data unchanged —
every stage takes its skip branch — and hence applying the neutral
profile twice equals applying it once. -/
theorem C6_neutral_is_identity_and_idempotent :
    ∀ (pshift : ℤ → List ℚ → List ℚ) (newRate : ℕ) (g : ℚ) (b : Buffer),
      process_audio pshift newRate g neutralStyle b = b ∧
      process_audio pshift newRate g neutralStyle
          (process_audio pshift newRate g neutralStyle b) =
        process_audio pshift newRate g neutralStyle b := by
  intro ps nr g b
  have h : ∀ c : Buffer, process_audio ps nr g neutralStyle c = c := by
    intro c
    norm_num [process_audio, gainStage, effectStage, speedStage, neutralStyle,
      none_ne_some_robot]
  exact ⟨h b, by rw [h b]; exact h b⟩

/-- C1, evaluated at the failing input: a 16 kHz mono 16-bit buffer under
a profile with effect none and pitchCents 50 (speed and volume at their
unchanged values, so only the pitch path runs).  Line 53 computes
`int(16000 * 2 ** (50 / 1200))`, which evaluates to 16468; line 55 then
calls `set_frame_rate` on the already rebound `audio`, passing the
segment's own overridden rate — a no-op.  The output therefore keeps the
virtual rate 16468 instead of the input's 16000, with the data unchanged
(so the duration in seconds shrinks by 16000/16468 instead of being
restored), contradicting the claimed restore-to-original-rate step. -/
theorem C1_pitch_path_keeps_virtual_rate :
    (process_audio psId 16468 1 pitchOnly50 demoBuf).frame_rate = 16468 ∧
    (process_audio psId 16468 1 pitchOnly50 demoBuf).data = demoBuf.data ∧
    demoBuf.frame_rate = 16000 := by
  norm_num [process_audio, gainStage, effectStage, speedStage, pitchOnly50,
    pitchStage, set_frame_rate, demoBuf, none_ne_some_robot]

/-- C3 counterexample: `process_audio` performs no format validation, so a
five-channel buffer — on which the claim says `process` fails with
UnsupportedFormat — is processed normally (here under the neutral profile,
returned unchanged), and likewise a buffer whose sample count (3) is not
divisible by its channel count (2) raises no MalformedBuffer. -/
theorem C3_counterexample_no_failure_on_bad_formats :
    fiveChanBuf.channels = 5 ∧
    process_audio psId 0 1 neutralStyle fiveChanBuf = fiveChanBuf ∧
    malformedBuf.data.length % malformedBuf.channels = 1 ∧
    process_audio psId 0 1 neutralStyle malformedBuf = malformedBuf := by
  refine ⟨rfl, ?_, rfl, ?_⟩ <;>
    norm_num [process_audio, gainStage, effectStage, speedStage, neutralStyle,
      none_ne_some_robot]

/-- C3 amended: `process_audio` contains no channel-count or sample-width
check and no divisibility check; it is total on every buffer (no
UnsupportedFormat or MalformedBuffer failure exists in the code), and it
carries the input's channel count and sample width through unchanged
whatever they are. -/
theorem C3_amended_process_total_no_validation :
    ∀ (pshift : ℤ → List ℚ → List ℚ) (newRate : ℕ) (g : ℚ)
      (p : StyleParams) (b : Buffer),
      (process_audio pshift newRate g p b).channels = b.channels ∧
      (process_audio pshift newRate g p b).sample_width = b.sample_width := by
  intro ps nr g p b
  unfold process_audio gainStage effectStage speedStage
  split_ifs <;>
    simp [apply_gain, robotStage, pitchStage, set_frame_rate, resampleModel,
      speedupModel]

/-- C8 counterexample: the pitch stage does not clamp its computed virtual
rate.  At pitchCents = -200000 line 53 evaluates
`int(16000 * 2 ** (-200000 / 1200))` = 0, and the stage then emits a
buffer whose frame rate is 0 — not a well-formed buffer (spec section 3
requires a positive rate) — instead of degrading gracefully. -/
theorem C8_counterexample_zero_rate_ill_formed :
    wellFormed demoBuf ∧ ¬ wellFormed (pitchStage 0 demoBuf) := by
  exact ⟨by decide, by decide⟩

/-! Further helper lemmas for well-formedness and length preservation. -/

theorem speedup_wf (s : ℚ) (b : Buffer) (hb : wellFormed b) :
    wellFormed (speedupModel s b) := by
  obtain ⟨hr, hc, hw, hdiv⟩ := hb
  refine ⟨hr, hc, hw, ?_⟩
  show (speedupModel s b).data.length % b.channels = 0
  rw [speedupModel_length]
  exact Nat.mul_mod_left _ _

theorem speedup_pos (s : ℚ) (b : Buffer) (hs : 0 < s) (hb : wellFormed b)
    (hne : b.data ≠ []) : 0 < (speedupModel s b).data.length := by
  obtain ⟨hr, hc, hw, hdiv⟩ := hb
  rw [speedupModel_length]
  have hlen : 0 < b.data.length := List.length_pos.mpr hne
  have hch : b.channels ≤ b.data.length :=
    Nat.le_of_dvd hlen (Nat.dvd_of_mod_eq_zero hdiv)
  have hfr : 0 < b.data.length / b.channels := Nat.div_pos hch hc
  have hceil : 0 < ⌈((b.data.length / b.channels : ℕ) : ℚ) / s⌉ := by
    apply Int.ceil_pos.mpr
    apply div_pos _ hs
    exact_mod_cast hfr
  have hnat : 0 < (⌈((b.data.length / b.channels : ℕ) : ℚ) / s⌉).toNat := by
    omega
  exact Nat.mul_pos hnat hc

theorem pitch_wf (nr : ℕ) (b : Buffer) (hnr : 0 < nr) (hb : wellFormed b) :
    wellFormed (pitchStage nr b) := by
  obtain ⟨hr, hc, hw, hdiv⟩ := hb
  rw [pitchStage_eq]
  exact ⟨hnr, hc, hw, hdiv⟩

theorem robot_len (pshift : ℤ → List ℚ → List ℚ) (b : Buffer)
    (hps : ∀ k l, (pshift k l).length = l.length) (hw : b.sample_width = 2) :
    (robotStage pshift b).data.length = b.data.length := by
  rw [robotStage_data pshift b hw]
  simp only [List.length_map, hps]

theorem robot_wf (pshift : ℤ → List ℚ → List ℚ) (b : Buffer)
    (hps : ∀ k l, (pshift k l).length = l.length) (hw : b.sample_width = 2)
    (hb : wellFormed b) : wellFormed (robotStage pshift b) := by
  obtain ⟨hr, hc, hwid, hdiv⟩ := hb
  refine ⟨hr, hc, hwid, ?_⟩
  show (robotStage pshift b).data.length % b.channels = 0
  rw [robot_len pshift b hps hw]
  exact hdiv

theorem process_meta (pshift : ℤ → List ℚ → List ℚ) (newRate : ℕ) (g : ℚ)
    (p : StyleParams) (b : Buffer) :
    (process_audio pshift newRate g p b).channels = b.channels ∧
    (process_audio pshift newRate g p b).sample_width = b.sample_width := by
  unfold process_audio gainStage effectStage speedStage
  split_ifs <;>
    simp [apply_gain, robotStage, pitchStage, set_frame_rate, resampleModel,
      speedupModel]

/-- C8 amended: both stages are total in the embedding and, whenever the
realized virtual rate `int(rate * 2 ** (pitch / 1200))` is positive,
produce a well-formed buffer from a well-formed (16-bit) input; what fails
in the claim is only the clamping of extreme values, as the counterexample
with realized rate 0 shows. -/
theorem C8_amended_stages_total_wellformed :
    ∀ (s : ℚ) (nr : ℕ) (pshift : ℤ → List ℚ → List ℚ) (b : Buffer),
      0 < s → 0 < nr → wellFormed b →
      (∀ k l, (pshift k l).length = l.length) → b.sample_width = 2 →
      wellFormed (speedupModel s b) ∧
      wellFormed (pitchStage nr b) ∧
      wellFormed (robotStage pshift b) := by
  intro s nr ps b hs hnr hb hps hw
  exact ⟨speedup_wf s b hb, pitch_wf nr b hnr hb, robot_wf ps b hps hw hb⟩

/-- Witness for C8's amended statement at a concrete input. -/
theorem C8_amended_stages_total_wellformed_witness :
    wellFormed (speedupModel 2 demoBuf) ∧
    wellFormed (pitchStage 16468 demoBuf) ∧
    wellFormed (robotStage psId demoBuf) :=
  C8_amended_stages_total_wellformed 2 16468 psId demoBuf (by norm_num)
    (by decide) (by decide) (fun _ _ => rfl) rfl

/-- C5: `process_audio` runs the three stages in the fixed order
time-scale, then pitch/effect, then gain; each stage is a no-op exactly
when its controlling parameter holds its unchanged value; the pitch/effect
stage takes exactly one of its two paths, with the robot path chosen
whenever `effect == "robot"` (taking precedence over `pitchCents`) and the
resample path only otherwise; the gain stage acts after the other two. -/
theorem C5_stage_order_and_guards :
    ∀ (pshift : ℤ → List ℚ → List ℚ) (newRate : ℕ) (g : ℚ)
      (p : StyleParams) (b : Buffer),
      process_audio pshift newRate g p b =
        gainStage g p (effectStage pshift newRate p (speedStage p b)) ∧
      (p.speed = 1 → speedStage p b = b) ∧
      (p.speed ≠ 1 → speedStage p b = speedupModel p.speed b) ∧
      (p.effect = some "robot" →
        effectStage pshift newRate p b = robotStage pshift b) ∧
      (p.effect ≠ some "robot" → p.pitch ≠ 0 →
        effectStage pshift newRate p b = pitchStage newRate b) ∧
      (p.effect ≠ some "robot" → p.pitch = 0 →
        effectStage pshift newRate p b = b) ∧
      (p.volume = 0 → gainStage g p b = b) ∧
      (p.volume ≠ 0 → gainStage g p b = apply_gain g b) := by
  intro ps nr g p b
  refine ⟨rfl, ?_, ?_, ?_, ?_, ?_, ?_, ?_⟩
  · intro h; simp [speedStage, h]
  · intro h; simp [speedStage, h]
  · intro h; simp [effectStage, h]
  · intro h h2; simp [effectStage, h, h2]
  · intro h h2; simp [effectStage, h, h2]
  · intro h; simp [gainStage, h]
  · intro h; simp [gainStage, h]

/-- Witness for C5 at concrete profiles: the neutral profile skips the
speed and gain stages, the pitch-only profile takes the resample path,
and the robot profile takes the robot path. -/
theorem C5_stage_order_and_guards_witness :
    speedStage neutralStyle demoBuf = demoBuf ∧
    effectStage psId 16468 pitchOnly50 demoBuf = pitchStage 16468 demoBuf ∧
    effectStage psId 0 robotStyle demoBuf = robotStage psId demoBuf ∧
    gainStage 1 neutralStyle demoBuf = demoBuf := by
  refine ⟨(C5_stage_order_and_guards psId 0 1 neutralStyle demoBuf).2.1 ?_,
    (C5_stage_order_and_guards psId 16468 1 pitchOnly50 demoBuf).2.2.2.2.1 ?_ ?_,
    (C5_stage_order_and_guards psId 0 1 robotStyle demoBuf).2.2.2.1 ?_,
    (C5_stage_order_and_guards psId 0 1 neutralStyle demoBuf).2.2.2.2.2.2.1 ?_⟩
  · norm_num [neutralStyle]
  · simp [pitchOnly50]
  · norm_num [pitchOnly50]
  · rfl
  · rfl

/-- C2 counterexample: the robot path's float-to-integer conversion wraps
instead of clamping.  With a shifter output holding the out-of-range float
sample 40000 (a full-scale input can overshoot under a spectral shift),
the rebuilt buffer holds -25536 — the value 40000 wrapped modulo 2^16 —
whereas the conversion the claim describes would clamp it to 32767. -/
theorem C2_counterexample_wrap_not_clamp :
    (robotStage psBig demoBuf).data = [-25536] ∧
    specClamp16 40000 = 32767 := by
  have htr : truncQ (40000 : ℚ) = 40000 := by norm_num [truncQ]
  have h40 : int16OfFloat 40000 = -25536 := by
    unfold int16OfFloat wrap16
    rw [htr]
    decide
  constructor
  · rw [robotStage_data psBig demoBuf rfl]
    simp only [psBig, List.map_cons, List.map_nil, h40]
  · unfold specClamp16
    rw [htr]
    decide

/-- C2 amended: the effect stage applies the shifter at the fixed
`n_steps = 5` to the whole interleaved signal whatever `pitchCents` is
(the profile's pitch field is unconstrained below), and the output sample
count equals the input's exactly for a length-preserving shifter, but the
conversion back to 16-bit integers is C-style truncation followed by
wrapping modulo 2^16 (`int16OfFloat`), not clamping. -/
theorem C2_amended_robot_fixed_shift_wraps :
    ∀ (pshift : ℤ → List ℚ → List ℚ) (b : Buffer) (p : StyleParams)
      (newRate : ℕ) (g : ℚ),
      (∀ k l, (pshift k l).length = l.length) → b.sample_width = 2 →
      p.effect = some "robot" → p.speed = 1 → p.volume = 0 →
      process_audio pshift newRate g p b = robotStage pshift b ∧
      (robotStage pshift b).data =
        (pshift 5 (b.data.map (fun (s : ℤ) => (s : ℚ)))).map int16OfFloat ∧
      (robotStage pshift b).data.length = b.data.length := by
  intro ps b p nr g hps hw he hsp hv
  refine ⟨?_, robotStage_data ps b hw, robot_len ps b hps hw⟩
  simp [process_audio, gainStage, effectStage, speedStage, hsp, he, hv]

/-- Witness for C2's amended statement at the robot profile on a concrete
buffer with the identity stand-in shifter. -/
theorem C2_amended_robot_fixed_shift_wraps_witness :
    process_audio psId 0 1 robotStyle demoBuf = robotStage psId demoBuf ∧
    (robotStage psId demoBuf).data =
      (psId 5 (demoBuf.data.map (fun (s : ℤ) => (s : ℚ)))).map int16OfFloat ∧
    (robotStage psId demoBuf).data.length = demoBuf.data.length :=
  C2_amended_robot_fixed_shift_wraps psId demoBuf robotStyle 0 1
    (fun _ _ => rfl) rfl rfl (by norm_num [robotStyle]) rfl

/-- C10: on the robot path the source passes the whole interleaved sample
list of all channels to the pitch shifter as one one-dimensional signal at
the buffer's frame rate (line 49) — channels are not shifted
independently — and relabels the rebuilt data with the original channel
count (line 51). -/
theorem C10_robot_interleaved_single_signal :
    ∀ (pshift : ℤ → List ℚ → List ℚ) (b : Buffer),
      b.sample_width = 2 → 2 ≤ b.channels →
      (robotStage pshift b).data =
        (pshift 5 (b.data.map (fun (s : ℤ) => (s : ℚ)))).map int16OfFloat ∧
      (robotStage pshift b).channels = b.channels ∧
      (robotStage pshift b).frame_rate = b.frame_rate := by
  intro ps b hw _hc
  exact ⟨robotStage_data ps b hw, rfl, rfl⟩

/-- Witness for C10 at a concrete stereo buffer. -/
theorem C10_robot_interleaved_single_signal_witness :
    (robotStage psId stereoBuf).data =
      (psId 5 (stereoBuf.data.map (fun (s : ℤ) => (s : ℚ)))).map int16OfFloat ∧
    (robotStage psId stereoBuf).channels = stereoBuf.channels ∧
    (robotStage psId stereoBuf).frame_rate = stereoBuf.frame_rate :=
  C10_robot_interleaved_single_signal psId stereoBuf rfl (by decide)

/-- C7 counterexample: the empty buffer is of supported format (mono,
16-bit) and well formed, yet processing it with the neutral profile
returns an output whose sample count is 0, not positive. -/
theorem C7_counterexample_empty_buffer :
    supportedFmt emptyBuf ∧ wellFormed emptyBuf ∧
    (process_audio psId 0 1 neutralStyle emptyBuf).data.length = 0 := by
  refine ⟨by decide, by decide, ?_⟩
  norm_num [process_audio, gainStage, effectStage, speedStage, neutralStyle,
    none_ne_some_robot, emptyBuf]

/-- C7 amended: for every supported, well-formed input with at least one
sample and any profile with positive speed, the output of `process_audio`
keeps the input's channel count and sample width and has a positive
(finite, as a list length always is) sample count — including on the
robot path, given the shifter's length guarantee. -/
theorem C7_amended_metadata_and_positivity :
    ∀ (pshift : ℤ → List ℚ → List ℚ) (newRate : ℕ) (g : ℚ)
      (p : StyleParams) (b : Buffer),
      (∀ k l, (pshift k l).length = l.length) → 0 < p.speed →
      supportedFmt b → wellFormed b → b.data ≠ [] →
      (process_audio pshift newRate g p b).channels = b.channels ∧
      (process_audio pshift newRate g p b).sample_width = b.sample_width ∧
      0 < (process_audio pshift newRate g p b).data.length := by
  intro ps nr g p b hps hs hsup hwf hne
  obtain ⟨hmc, hmw⟩ := process_meta ps nr g p b
  refine ⟨hmc, hmw, ?_⟩
  have hw2 : b.sample_width = 2 := hsup.2
  have h1 : 0 < (speedStage p b).data.length ∧
      (speedStage p b).sample_width = 2 := by
    unfold speedStage
    split
    · exact ⟨speedup_pos p.speed b hs hwf hne, hw2⟩
    · exact ⟨List.length_pos.mpr hne, hw2⟩
  have h2 : 0 < (effectStage ps nr p (speedStage p b)).data.length := by
    unfold effectStage
    split
    · rw [robot_len ps (speedStage p b) hps h1.2]
      exact h1.1
    · split
      · rw [pitchStage_eq]
        exact h1.1
      · exact h1.1
  show 0 < (gainStage g p (effectStage ps nr p (speedStage p b))).data.length
  unfold gainStage
  split
  · rw [apply_gain_length]
    exact h2
  · exact h2

/-- Witness for C7's amended statement at a concrete nonempty buffer. -/
theorem C7_amended_metadata_and_positivity_witness :
    (process_audio psId 0 1 neutralStyle demoBuf).channels =
      demoBuf.channels ∧
    (process_audio psId 0 1 neutralStyle demoBuf).sample_width =
      demoBuf.sample_width ∧
    0 < (process_audio psId 0 1 neutralStyle demoBuf).data.length :=
  C7_amended_metadata_and_positivity psId 0 1 neutralStyle demoBuf
    (fun _ _ => rfl) (by norm_num [neutralStyle]) (by decide) (by decide)
    (by decide)
